import Mathlib

/-!
Shallow embedding of `scripts/task.py` (Parallel.ai Task API CLI client)
and verification of its specification.

Python dictionaries are modelled as association lists with Python's
insertion semantics (insert-in-place on duplicate key, append otherwise);
`str.split`, `str.strip`, `str.replace` and f-strings are modelled with
executable character-list functions and string concatenation; optional
attributes of response objects are modelled with `Option`; a raised
exception is modelled with an explicit error constructor; wall-clock time
in the polling loop advances by exactly the 2-second sleep per iteration.
-/

namespace TaskCli

/-- Python dict insertion: `d[k] = v` replaces the value in place when `k`
is already a key, otherwise appends the new binding. -/
def dictInsert {α : Type} (d : List (String × α)) (k : String) (v : α) :
    List (String × α) :=
  if d.any (fun p => p.1 = k) then
    d.map (fun p => if p.1 = k then (k, v) else p)
  else d ++ [(k, v)]

/-- Python `s.split(sep)` for a one-character separator, over the character
list: `"".split(",") = [""]`, and empty chunks between adjacent separators
are kept. Never returns `[]`. -/
def splitChar (sep : Char) : List Char → List (List Char)
  | [] => [[]]
  | c :: rest =>
      match splitChar sep rest with
      | [] => [[]]
      | h :: t => if c = sep then [] :: h :: t else (c :: h) :: t

/-- Python `s.split(sep)` for a one-character separator. -/
def pySplit (s : String) (sep : Char) : List String :=
  (splitChar sep s.data).map List.asString

/-- Python `s.strip()`: drop whitespace from both ends. -/
def pyStrip (s : String) : String :=
  (((s.data.dropWhile Char.isWhitespace).reverse.dropWhile
      Char.isWhitespace).reverse).asString

/-- Python `s.replace(pat, rep)` for one-character pattern and
replacement. -/
def pyReplaceChar (s : String) (pat rep : Char) : String :=
  (s.data.map (fun c => if c = pat then rep else c)).asString

/-- Python `pair.split("=", 1)` guarded by `"=" in pair`: `none` when the
string has no `=`, otherwise the parts before and after the first `=`. -/
def splitFirstEq (s : String) : Option (String × String) :=
  match pySplit s '=' with
  | [] => none
  | [_] => none
  | k :: rest => some (k, String.intercalate "=" rest)

/-- One JSON-schema property: `{"type": ..., "description": ...}`; the
description key is absent for input properties. -/
structure SchemaProp where
  type : String
  description : Option String
deriving DecidableEq, Repr

/-- The object-level JSON schema built by `build_enrichment_spec`. -/
structure JsonSchemaObj where
  properties : List (String × SchemaProp)
  required : List String
  additionalProperties : Bool
deriving DecidableEq, Repr

/-- A task-spec schema entry: either `{"type": "json", "json_schema": ...}`
or `{"type": "text"}`. -/
inductive Schema where
  | jsonSchema (js : JsonSchemaObj)
  | textSchema
deriving DecidableEq, Repr

/-- The `task_spec` dict: `input_schema` key is absent for the report
spec `{"output_schema": {"type": "text"}}`. -/
structure TaskSpec where
  input_schema : Option Schema
  output_schema : Schema
deriving DecidableEq, Repr

/-- Step of the input-field loop of `build_enrichment_spec`: a comma token
with an `=` adds stripped key/value to `input_data` and a string-typed
property to `input_props`; a token without `=` is dropped. -/
def enrichInputStep (acc : List (String × String) × List (String × SchemaProp))
    (pair : String) : List (String × String) × List (String × SchemaProp) :=
  match splitFirstEq pair with
  | some (key, val) =>
      (dictInsert acc.1 (pyStrip key) (pyStrip val),
       dictInsert acc.2 (pyStrip key) ⟨"string", none⟩)
  | none => acc

/-- Step of the output-field loop of `build_enrichment_spec`: a stripped
non-empty field becomes a string property with the generated description;
an empty field is skipped. -/
def enrichOutputStep (acc : List (String × SchemaProp)) (field : String) :
    List (String × SchemaProp) :=
  let field := pyStrip field
  if field ≠ "" then
    dictInsert acc field
      ⟨"string", some ("The " ++ pyReplaceChar field '_' ' ' ++ " of the entity")⟩
  else acc

/-- Embedding of `build_enrichment_spec(input_fields, output_fields)`: parses the
comma-separated `key=value` input string and the comma-separated output
field string, and returns `(input_data, task_spec)` with both schemas
requiring exactly their property keys and `additionalProperties: False`. -/
def build_enrichment_spec (input_fields output_fields : String) :
    List (String × String) × TaskSpec :=
  let parsed := (pySplit input_fields ',').foldl enrichInputStep ([], [])
  let input_data := parsed.1
  let input_props := parsed.2
  let output_props := (pySplit output_fields ',').foldl enrichOutputStep []
  (input_data,
   { input_schema := some (.jsonSchema
       { properties := input_props
         required := input_props.map Prod.fst
         additionalProperties := false })
     output_schema := .jsonSchema
       { properties := output_props
         required := output_props.map Prod.fst
         additionalProperties := false } })

/-- The task input: a plain query string or the enrichment key/value
mapping. -/
inductive InputData where
  | str (s : String)
  | dict (d : List (String × String))
deriving DecidableEq, Repr

/-- Python truthiness of an optional list (`None` and `[]` are falsy). -/
def listTruthy {α : Type} : Option (List α) → Bool
  | none => false
  | some l => !l.isEmpty

/-- Python truthiness of an optional string (`None` and `""` are falsy). -/
def strTruthy : Option String → Bool
  | none => false
  | some s => s ≠ ""

/-- The `source_policy` dict: each key is present only when the
corresponding domain list is truthy. -/
structure SourcePolicy where
  include_domains : Option (List String)
  exclude_domains : Option (List String)
deriving DecidableEq, Repr

/-- One MCP server descriptor for authenticated browsing; `authHeader` is
the value of the `Authorization` header. -/
structure McpServer where
  type : String
  url : String
  name : String
  authHeader : String
deriving DecidableEq, Repr

/-- The keyword-argument dict `params` passed to
`client.beta.task_run.create`; an `Option` field is `none` when the key is
absent from the dict. -/
structure TaskParams where
  input : InputData
  processor : String
  task_spec : Option TaskSpec
  source_policy : Option SourcePolicy
  mcp_servers : Option (List McpServer)
  betas : Option (List String)
deriving DecidableEq, Repr

/-- Embedding of `create_task`: assembles the request params. `task_spec` is added when
given (the specs built by this program are non-empty dicts, so Python dict
truthiness agrees with `isSome`); `source_policy` is added only when at
least one domain list is truthy, with exactly the truthy keys;
`mcp_servers` and the beta flag are added together when servers are
given. -/
def create_task (input_data : InputData) (processor : String)
    (task_spec : Option TaskSpec)
    (include_domains exclude_domains : Option (List String))
    (mcp_servers : Option (List McpServer)) : TaskParams :=
  { input := input_data
    processor := processor
    task_spec := task_spec
    source_policy :=
      if listTruthy include_domains || listTruthy exclude_domains then
        some { include_domains :=
                 if listTruthy include_domains then include_domains else none
               exclude_domains :=
                 if listTruthy exclude_domains then exclude_domains else none }
      else none
    mcp_servers := if listTruthy mcp_servers then mcp_servers else none
    betas :=
      if listTruthy mcp_servers then some ["mcp-server-2025-07-17"]
      else none }

/-- The `run` object of a task-run response: `run_id`, `status` and
`processor` are always present. -/
structure Run where
  run_id : String
  status : String
  processor : String
deriving DecidableEq, Repr

/-- One citation of a basis entry; `title` and `url` are accessed
unconditionally by the code. -/
structure Citation where
  title : String
  url : String
deriving DecidableEq, Repr

/-- One provenance (basis) entry; each `Option` field is `none` when the
attribute is absent from the response object. -/
structure Basis where
  field : Option String
  confidence : Option String
  citations : Option (List Citation)
deriving DecidableEq, Repr

/-- The `content` of an output: a Python `str`, a dict (whose values are
represented by their `str()` images), or any other value represented by
its `str()` image. -/
inductive Content where
  | strv (s : String)
  | dictv (items : List (String × String))
  | otherv (srepr : String)
deriving DecidableEq, Repr

/-- Python `str(content)`; for a dict the values stand in for their `repr`. -/
def contentStr : Content → String
  | .strv s => s
  | .dictv items =>
      "\x7b" ++
        String.intercalate ", "
          (items.map (fun kv => kv.1 ++ ": " ++ kv.2)) ++ "\x7d"
  | .otherv s => s

/-- The `output` object of a completed run; `basis` is `none` when the
attribute is absent. -/
structure Output where
  type : String
  content : Content
  basis : Option (List Basis)
deriving DecidableEq, Repr

/-- A task-run retrieval result; `output` is `none` when the attribute is
absent or `None` (`hasattr(result, 'output') and result.output`). -/
structure RunResult where
  run : Run
  output : Option Output
deriving DecidableEq, Repr

/-- Truncation of a per-field value in dict output: 200 characters plus an
ellipsis marker. -/
def truncVal (s : String) : String :=
  if s.length > 200 then (s.data.take 200).asString ++ "..." else s

/-- Truncation of free-text content: 2000 characters plus an ellipsis
marker. -/
def truncContent (s : String) : String :=
  if s.length > 2000 then (s.data.take 2000).asString ++ "..." else s

/-- Python `isinstance(content, dict)`. -/
def Content.isDict : Content → Bool
  | .dictv _ => true
  | _ => false

/-- The output-content lines of `format_result`: the dict branch when the
type is `"json"` and the content is a dict, the text branch when the type
is `"text"` (where slicing non-`str` content raises, modelled as `none`),
and the stringified fallback otherwise. -/
def contentLines (ty : String) (c : Content) : Option (List String) :=
  if ty = "json" ∧ c.isDict then
    match c with
    | .dictv items =>
        some ("**Results:**" ::
          items.map (fun kv =>
            "  ‚Ä¢ " ++ kv.1 ++ ": " ++ truncVal kv.2))
    | _ => none
  else if ty = "text" then
    match c with
    | .strv s => some ["**Report:**", truncContent s]
    | _ => none
  else
    some ["**Output (" ++ ty ++ "):**", (contentStr c).data.take 2000 |>.asString]

/-- The citation lines for one basis entry: missing `field` defaults to
`"result"`, missing `confidence` to `"unknown"`, and at most 2 citations
are shown. -/
def basisEntryLines (b : Basis) : List String :=
  ("  [" ++ b.field.getD "result" ++ "] confidence: " ++
     b.confidence.getD "unknown") ::
  (match b.citations with
   | none => []
   | some cs => (cs.take 2).map (fun c => "    - " ++ c.title ++ ": " ++ c.url))

/-- The citations block of `format_result`: shown only when the `basis`
attribute is present and truthy, limited to 5 entries. -/
def basisLines : Option (List Basis) → List String
  | none => []
  | some [] => []
  | some l => "" :: "**Citations:**" :: (l.take 5).flatMap basisEntryLines

/-- Embedding of `format_result`: the human-readable renderer. Returns `none` exactly
when the Python code would raise (text-typed output whose content is not a
`str`). -/
def format_result (result : RunResult) : Option String :=
  let hdr := ["üî¨ Task: " ++ result.run.run_id,
              "   Status: " ++ result.run.status ++ " | Processor: " ++
                result.run.processor,
              ""]
  match result.output with
  | none => some (String.intercalate "\n" hdr)
  | some out =>
      (contentLines out.type out.content).map (fun cls =>
        String.intercalate "\n" (hdr ++ cls ++ basisLines out.basis))

/-- One entry of the normalized `basis` list of the JSON document; a
missing optional field of the response becomes `none` (JSON `null`), and
missing citations become `[]`. -/
structure JsonBasisEntry where
  field : Option String
  confidence : Option String
  citations : List Citation
deriving DecidableEq, Repr

/-- The normalized JSON document printed under `--json`; an `Option` field
is `none` when the key is absent. -/
structure JsonDoc where
  run_id : String
  status : String
  processor : String
  output : Option (String × Content)
  basis : Option (List JsonBasisEntry)
deriving DecidableEq, Repr

/-- Expansion of one basis entry for the JSON document. -/
def expandBasis (b : Basis) : JsonBasisEntry :=
  { field := b.field
    confidence := b.confidence
    citations := b.citations.getD [] }

/-- The JSON renderer (the `--json` branch of `main`): run id, status and
processor always; output type and content only when an output is present;
the basis list, fully expanded, when the `basis` attribute is present. -/
def render_json (result : RunResult) : JsonDoc :=
  { run_id := result.run.run_id
    status := result.run.status
    processor := result.run.processor
    output := result.output.map (fun o => (o.type, o.content))
    basis :=
      match result.output with
      | none => none
      | some o => o.basis.map (fun bs => bs.map expandBasis) }

/-- The three JSON fields of one rendered basis entry, as the document
serializes them: the code always emits a `citations` key holding a
(possibly empty) list, so that field is `some e.citations` and is never
the JSON null. -/
def jsonBasisEntryFields (e : JsonBasisEntry) :
    Option String × Option String × Option (List Citation) :=
  (e.field, e.confidence, some e.citations)

/-- Modelled from the spec: the basis-entry fields that claim C5 predicts
for a basis value with every optional attribute missing — `field`,
`confidence` and `citations` each become null. -/
def specNullCitationsEntryC5 :
    Option String × Option String × Option (List Citation) :=
  (none, none, none)

/-- Outcome of `poll_task`; the index `k` counts the status retrievals
already performed when the outcome is decided, so `success r k` returns
the result `r` of the `(k+1)`-th retrieval, `taskFailed detail k` raises
`Exception` carrying the run of the `(k+1)`-th retrieval, and
`timedOut k` raises `TimeoutError` after `k` retrievals. -/
inductive PollOutcome where
  | success (r : RunResult) (k : Nat)
  | taskFailed (detail : Run) (k : Nat)
  | timedOut (k : Nat)
deriving DecidableEq, Repr

/-- The polling loop at iteration `k`: elapsed wall-clock time is the `2`
seconds of sleep per completed iteration, so the `while` guard
`time.time() - start < timeout` reads `2 * k < timeout`. -/
def pollGo (retrieve : Nat → RunResult) (timeout : Int) (k : Nat) :
    PollOutcome :=
  if h : 2 * (k : Int) < timeout then
    let result := retrieve k
    if result.run.status = "completed" then .success result k
    else if result.run.status = "failed" then .taskFailed result.run k
    else pollGo retrieve timeout (k + 1)
  else .timedOut k
termination_by (timeout - 2 * (k : Int)).toNat
decreasing_by omega

/-- Embedding of `poll_task`: poll the run status every 2 seconds until the status is
`"completed"` (return the result), `"failed"` (raise with the failure
detail), or the timeout elapses (raise `TimeoutError`). `retrieve j` is
the result of the `(j+1)`-th `client.beta.task_run.retrieve(run_id)`. -/
def poll_task (retrieve : Nat → RunResult) (timeout : Int) : PollOutcome :=
  pollGo retrieve timeout 0

/-- The parsed command-line arguments (`argparse` result). `processor`
defaults to `"core"` and is restricted by `argparse` to the three tiers;
an `Option` flag is `none` when not supplied. -/
structure Args where
  query : List String
  processor : String
  enrich : Option String
  output : Option String
  report : Bool
  include_domains : Option String
  exclude_domains : Option String
  browseruse_key : Option String
  timeout : Int
  json : Bool
  no_wait : Bool
deriving DecidableEq, Repr

/-- The usage errors of `main` that exit with code 1 before submission. -/
inductive CliError where
  | enrichNeedsOutput
  | reportNeedsQuery
  | noQuery
deriving DecidableEq, Repr

/-- Python `" ".join(args.query) if args.query else None`. -/
def joinedQuery (q : List String) : Option String :=
  if q.isEmpty then none else some (String.intercalate " " q)

/-- The report-mode task spec `{"output_schema": {"type": "text"}}`. -/
def reportTaskSpec : TaskSpec :=
  { input_schema := none, output_schema := .textSchema }

/-- The mode dispatch of `main`: computes `(input_data, task_spec,
processor)` or a usage error. Enrichment mode (truthy `--enrich`) takes
precedence, then report mode, then the plain query. -/
def dispatchMode (args : Args) : Except CliError (InputData × Option TaskSpec × String) :=
  if strTruthy args.enrich then
    if !strTruthy args.output then .error .enrichNeedsOutput
    else
      let built := build_enrichment_spec (args.enrich.getD "") (args.output.getD "")
      .ok (.dict built.1, some built.2, args.processor)
  else if args.report then
    match joinedQuery args.query with
    | none => .error .reportNeedsQuery
    | some q =>
        if q = "" then .error .reportNeedsQuery
        else .ok (.str q, some reportTaskSpec, "ultra")
  else
    match joinedQuery args.query with
    | none => .error .noQuery
    | some q =>
        if q = "" then .error .noQuery
        else .ok (.str q, none, args.processor)

/-! ### Helper lemmas -/

theorem listTruthy_isSome {α : Type} (o : Option (List α))
    (h : listTruthy o = true) : o.isSome = true := by
  cases o <;> simp [listTruthy] at h ⊢

theorem mem_dictInsert {α : Type} {d : List (String × α)} {k : String}
    {v : α} {k' : String} {v' : α} (h : (k', v') ∈ dictInsert d k v) :
    (k', v') ∈ d ∨ (k' = k ∧ v' = v) := by
  unfold dictInsert at h
  split at h
  · obtain ⟨p, hp, hfp⟩ := List.mem_map.mp h
    by_cases hk : p.1 = k
    · simp only [hk, if_pos] at hfp
      cases hfp
      exact Or.inr ⟨rfl, rfl⟩
    · simp only [hk, if_neg, not_false_iff] at hfp
      left
      exact hfp ▸ hp
  · rcases List.mem_append.mp h with h1 | h2
    · exact Or.inl h1
    · right
      simpa using h2

theorem dictInsert_length {α : Type} (d : List (String × α)) (k : String)
    (v : α) : (dictInsert d k v).length ≤ d.length + 1 := by
  unfold dictInsert
  split
  · simp
  · simp

theorem foldl_invariant {α β : Type} (f : β → α → β) (P : β → Prop)
    (l : List α) (b : β) (h0 : P b)
    (hstep : ∀ b' a, P b' → P (f b' a)) : P (l.foldl f b) := by
  induction l generalizing b with
  | nil => exact h0
  | cons x xs ih => exact ih (f b x) (hstep b x h0)

theorem splitChar_of_not_mem (sep : Char) (s : List Char) (h : sep ∉ s) :
    splitChar sep s = [s] := by
  induction s with
  | nil => rfl
  | cons c cs ih =>
      have hc : c ≠ sep := fun hcs => h (hcs ▸ List.mem_cons_self c cs)
      have hcs : sep ∉ cs := fun hm => h (List.mem_cons_of_mem c hm)
      rw [splitChar, ih hcs]
      simp [hc]

theorem splitFirstEq_eq_none (t : String) (h : '=' ∉ t.data) :
    splitFirstEq t = none := by
  unfold splitFirstEq pySplit
  rw [splitChar_of_not_mem '=' t.data h]
  rfl

/-! ### Claims about the schema builder -/

/-- C2: building the enrichment spec from `"a=1,b=2"` and `"x,y"` yields
input data `{a: "1", b: "2"}`, an input schema requiring exactly `a` and
`b`, an output schema requiring exactly `x` and `y`, all properties typed
string, and `additionalProperties: False` on both schemas. -/
theorem enrichment_roundtrip_C2 :
    build_enrichment_spec "a=1,b=2" "x,y" =
      ([("a", "1"), ("b", "2")],
       { input_schema := some (.jsonSchema
           { properties := [("a", ⟨"string", none⟩), ("b", ⟨"string", none⟩)]
             required := ["a", "b"]
             additionalProperties := false })
         output_schema := .jsonSchema
           { properties :=
               [("x", ⟨"string", some "The x of the entity"⟩),
                ("y", ⟨"string", some "The y of the entity"⟩)]
             required := ["x", "y"]
             additionalProperties := false } }) := by
  decide

/-- C4 counterexample: the description generated for the output field
`"founding_year"` is `"The founding year of the entity"`, not the string
`"The founding year"` that the claim prescribes. -/
theorem outputDescription_C4_cex :
    (build_enrichment_spec "" "founding_year").2.output_schema =
      .jsonSchema
        { properties :=
            [("founding_year",
              ⟨"string", some "The founding year of the entity"⟩)]
          required := ["founding_year"]
          additionalProperties := false } ∧
    some "The founding year of the entity" ≠
      some ("The " ++ pyReplaceChar "founding_year" '_' ' ') := by
  decide

/-- C4 (amended): every property of the generated output schema is typed
string and carries the description `"The "`, then the field name with each
underscore replaced by a space, then `" of the entity"`. -/
theorem outputDescription_C4 (input_fields output_fields : String)
    (js : JsonSchemaObj)
    (hjs : (build_enrichment_spec input_fields output_fields).2.output_schema
      = .jsonSchema js)
    (k : String) (p : SchemaProp) (hmem : (k, p) ∈ js.properties) :
    p.type = "string" ∧
    p.description =
      some ("The " ++ pyReplaceChar k '_' ' ' ++ " of the entity") := by
  have hfold : js.properties =
      (pySplit output_fields ',').foldl enrichOutputStep [] := by
    have : (build_enrichment_spec input_fields output_fields).2.output_schema
        = .jsonSchema
          { properties := (pySplit output_fields ',').foldl enrichOutputStep []
            required :=
              ((pySplit output_fields ',').foldl enrichOutputStep []).map
                Prod.fst
            additionalProperties := false } := rfl
    rw [this] at hjs
    cases hjs
    rfl
  rw [hfold] at hmem
  have hinv := foldl_invariant enrichOutputStep
    (fun acc => ∀ k' p', (k', p') ∈ acc →
      p'.type = "string" ∧
      p'.description =
        some ("The " ++ pyReplaceChar k' '_' ' ' ++ " of the entity"))
    (pySplit output_fields ',') [] (by simp)
    (by
      intro acc a hacc k' p' hmem'
      simp only [enrichOutputStep] at hmem'
      split at hmem'
      · rcases mem_dictInsert hmem' with h | ⟨hk, hp⟩
        · exact hacc k' p' h
        · subst hk hp
          exact ⟨rfl, rfl⟩
      · exact hacc k' p' hmem')
  exact hinv k p hmem

/-- C4 witness: the amended description law instantiated at the output
field string `"x_y"`. -/
theorem outputDescription_C4_witness :
    SchemaProp.type ⟨"string", some "The x y of the entity"⟩ = "string" ∧
    SchemaProp.description ⟨"string", some "The x y of the entity"⟩ =
      some ("The " ++ pyReplaceChar "x_y" '_' ' ' ++ " of the entity") :=
  outputDescription_C4 "a=1" "x_y"
    { properties := [("x_y", ⟨"string", some "The x y of the entity"⟩)]
      required := ["x_y"]
      additionalProperties := false }
    (by decide) "x_y" ⟨"string", some "The x y of the entity"⟩ (by decide)

/-- C8: a comma token without `=` leaves the accumulated input data
unchanged, and the number of input-data entries is at most the number of
comma-separated tokens. -/
theorem inputData_size_C8 (input_fields output_fields : String) :
    (∀ (acc : List (String × String) × List (String × SchemaProp))
       (t : String), '=' ∉ t.data → enrichInputStep acc t = acc) ∧
    (build_enrichment_spec input_fields output_fields).1.length ≤
      (pySplit input_fields ',').length := by
  constructor
  · intro acc t ht
    unfold enrichInputStep
    rw [splitFirstEq_eq_none t ht]
  · have hlen : ∀ (l : List String)
        (acc : List (String × String) × List (String × SchemaProp)),
        ((l.foldl enrichInputStep acc).1).length ≤ acc.1.length + l.length := by
      intro l
      induction l with
      | nil => intro acc; simp
      | cons x xs ih =>
          intro acc
          have hstep : ((enrichInputStep acc x).1).length ≤ acc.1.length + 1 := by
            unfold enrichInputStep
            cases splitFirstEq x with
            | none => simp
            | some kv => exact dictInsert_length _ _ _
          calc ((( x :: xs).foldl enrichInputStep acc).1).length
              = (((xs).foldl enrichInputStep (enrichInputStep acc x)).1).length := rfl
            _ ≤ (enrichInputStep acc x).1.length + xs.length := ih _
            _ ≤ acc.1.length + 1 + xs.length := by omega
            _ = acc.1.length + (x :: xs).length := by simp; omega
    have := hlen (pySplit input_fields ',') ([], [])
    simpa [build_enrichment_spec] using this

/-- C8 witness: the token-exclusion law and the size bound instantiated at
the concrete input `"a=1,junk"` / `"x"`. -/
theorem inputData_size_C8_witness :
    enrichInputStep ([], []) "junk" = ([], []) ∧
    (build_enrichment_spec "a=1,junk" "x").1.length ≤
      (pySplit "a=1,junk" ',').length :=
  ⟨(inputData_size_C8 "a=1,junk" "x").1 ([], []) "junk" (by decide),
   (inputData_size_C8 "a=1,junk" "x").2⟩

/-! ### Claims about the task submitter and the CLI driver -/

/-- C7: the request contains a `source_policy` entry exactly when at least
one domain list is non-empty, and the policy contains exactly the keys
whose list is non-empty. -/
theorem sourcePolicy_keys_C7 (inp : InputData) (proc : String)
    (spec : Option TaskSpec) (incl excl : Option (List String))
    (mcp : Option (List McpServer)) :
    ((create_task inp proc spec incl excl mcp).source_policy.isSome =
      (listTruthy incl || listTruthy excl)) ∧
    (∀ sp, (create_task inp proc spec incl excl mcp).source_policy = some sp →
      sp.include_domains.isSome = listTruthy incl ∧
      sp.exclude_domains.isSome = listTruthy excl ∧
      (listTruthy incl = true → sp.include_domains = incl) ∧
      (listTruthy excl = true → sp.exclude_domains = excl)) := by
  constructor
  · unfold create_task
    by_cases hi : listTruthy incl <;> by_cases he : listTruthy excl <;>
      simp [hi, he]
  · intro sp hsp
    unfold create_task at hsp
    by_cases hi : listTruthy incl <;> by_cases he : listTruthy excl <;>
      simp only [hi, he, Bool.or_self, Bool.or_true, Bool.true_or,
        if_pos, if_true, if_false, Bool.false_eq_true, reduceIte,
        Option.some.injEq] at hsp
    · subst hsp
      simp [listTruthy_isSome _ hi, listTruthy_isSome _ he, hi, he]
    · subst hsp
      simp [listTruthy_isSome _ hi, hi, he]
    · subst hsp
      simp [listTruthy_isSome _ he, hi, he]
    · cases hsp

/-- C7 witness: the key law instantiated with one include domain and no
exclude list. -/
theorem sourcePolicy_keys_C7_witness :
    ((create_task (.str "q") "core" none (some ["x.com"]) none
        none).source_policy.isSome =
      (listTruthy (some ["x.com"]) || listTruthy (none : Option (List String)))) ∧
    (SourcePolicy.include_domains ⟨some ["x.com"], none⟩).isSome =
      listTruthy (some ["x.com"]) ∧
    (SourcePolicy.exclude_domains ⟨some ["x.com"], none⟩).isSome =
      listTruthy (none : Option (List String)) :=
  ⟨(sourcePolicy_keys_C7 (.str "q") "core" none (some ["x.com"]) none none).1,
   ((sourcePolicy_keys_C7 (.str "q") "core" none (some ["x.com"]) none
       none).2 ⟨some ["x.com"], none⟩ (by decide)).1,
   ((sourcePolicy_keys_C7 (.str "q") "core" none (some ["x.com"]) none
       none).2 ⟨some ["x.com"], none⟩ (by decide)).2.1⟩

/-- C6: when enrichment is not requested and report mode is on, a
successful dispatch yields processor `"ultra"` and the text-output task
spec, whatever `--processor` said, and the submitted request carries
them. -/
theorem reportMode_ultra_C6 (args : Args) (inp : InputData)
    (spec : Option TaskSpec) (proc : String)
    (henr : strTruthy args.enrich = false) (hrep : args.report = true)
    (hok : dispatchMode args = .ok (inp, spec, proc))
    (incl excl : Option (List String)) (mcp : Option (List McpServer)) :
    proc = "ultra" ∧ spec = some reportTaskSpec ∧
    (create_task inp proc spec incl excl mcp).processor = "ultra" ∧
    (create_task inp proc spec incl excl mcp).task_spec =
      some reportTaskSpec := by
  unfold dispatchMode at hok
  rw [henr, hrep] at hok
  simp only [Bool.false_eq_true, if_false, if_true] at hok
  split at hok
  · cases hok
  · split at hok
    · cases hok
    · cases hok
      exact ⟨rfl, rfl, rfl, rfl⟩

/-- C6 witness: report mode with `--processor base` still submits with
processor `"ultra"` and the text-output spec. -/
theorem reportMode_ultra_C6_witness :
    "ultra" = "ultra" ∧
    (some reportTaskSpec = some reportTaskSpec) ∧
    (create_task (.str "Market analysis") "ultra" (some reportTaskSpec)
        none none none).processor = "ultra" ∧
    (create_task (.str "Market analysis") "ultra" (some reportTaskSpec)
        none none none).task_spec = some reportTaskSpec :=
  reportMode_ultra_C6
    { query := ["Market", "analysis"], processor := "base", enrich := none,
      output := none, report := true, include_domains := none,
      exclude_domains := none, browseruse_key := none, timeout := 300,
      json := false, no_wait := false }
    (.str "Market analysis") (some reportTaskSpec) "ultra"
    (by decide) (by decide) (by rfl) none none none

/-! ### Claims about the result renderers -/

/-- C9: both renderers are deterministic functions of the result value
alone; formatting the same `RunResult` twice yields identical output. -/
theorem renderers_deterministic_C9 (r : RunResult) :
    format_result r = format_result r ∧ render_json r = render_json r :=
  ⟨rfl, rfl⟩

/-- C5 counterexample: for a basis entry with every optional attribute
missing, the rendered document's entry carries the empty citations list,
not the all-null fields the claim predicts — the `citations` key holds
`[]`, which is not null. -/
theorem renderJson_citations_C5_cex :
    (render_json ⟨⟨"run-1", "completed", "core"⟩,
        some ⟨"json", .dictv [("a", "1")],
          some [⟨none, none, none⟩]⟩⟩).basis =
      some [⟨none, none, []⟩] ∧
    jsonBasisEntryFields ⟨none, none, []⟩ ≠ specNullCitationsEntryC5 := by
  decide

/-- C5 (amended): the JSON document carries run id, status and processor;
output type and content exactly when an output is present; a
fully-expanded basis list (missing `field` and `confidence` becoming
null, missing citations becoming the empty list) when the basis attribute
is present; and both renderers complete without error when output or
basis is absent. -/
theorem renderJson_shape_C5 (r : RunResult) :
    (render_json r).run_id = r.run.run_id ∧
    (render_json r).status = r.run.status ∧
    (render_json r).processor = r.run.processor ∧
    (render_json r).output.isSome = r.output.isSome ∧
    (∀ o, r.output = some o →
      (render_json r).output = some (o.type, o.content)) ∧
    (∀ o bs, r.output = some o → o.basis = some bs →
      (render_json r).basis = some (bs.map expandBasis)) ∧
    (∀ b, (expandBasis b).field = b.field ∧
      (expandBasis b).confidence = b.confidence ∧
      (expandBasis b).citations = b.citations.getD []) ∧
    (r.output = none →
      (format_result r).isSome = true ∧ (render_json r).basis = none) ∧
    (∀ run ty c bs,
      (format_result ⟨run, some ⟨ty, c, none⟩⟩).isSome =
        (format_result ⟨run, some ⟨ty, c, some bs⟩⟩).isSome) := by
  refine ⟨rfl, rfl, rfl, ?_, ?_, ?_, ?_, ?_, ?_⟩
  · cases h : r.output <;> simp [render_json, h]
  · intro o ho
    simp [render_json, ho]
  · intro o bs ho hbs
    simp [render_json, ho, hbs]
  · intro b
    exact ⟨rfl, rfl, rfl⟩
  · intro ho
    exact ⟨by simp [format_result, ho], by simp [render_json, ho]⟩
  · intro run ty c bs
    simp only [format_result]
    cases contentLines ty c <;> simp

/-- C5 witness: the JSON-document shape at a concrete result with output
and basis present, and error-freedom at a concrete result with output
absent and at concrete outputs differing only in basis presence. -/
theorem renderJson_shape_C5_witness :
    (render_json ⟨⟨"run-1", "completed", "core"⟩,
        some ⟨"json", .dictv [("a", "1")],
          some [⟨none, some "high", none⟩]⟩⟩).output =
      some ("json", .dictv [("a", "1")]) ∧
    (render_json ⟨⟨"run-1", "completed", "core"⟩,
        some ⟨"json", .dictv [("a", "1")],
          some [⟨none, some "high", none⟩]⟩⟩).basis =
      some ([(⟨none, some "high", none⟩ : Basis)].map expandBasis) ∧
    ((format_result ⟨⟨"run-2", "completed", "core"⟩, none⟩).isSome = true ∧
      (render_json ⟨⟨"run-2", "completed", "core"⟩, none⟩).basis = none) ∧
    (format_result ⟨⟨"run-2", "completed", "core"⟩,
        some ⟨"text", .strv "hi", none⟩⟩).isSome =
      (format_result ⟨⟨"run-2", "completed", "core"⟩,
        some ⟨"text", .strv "hi", some [⟨none, none, none⟩]⟩⟩).isSome :=
  ⟨(renderJson_shape_C5 ⟨⟨"run-1", "completed", "core"⟩,
      some ⟨"json", .dictv [("a", "1")],
        some [⟨none, some "high", none⟩]⟩⟩).2.2.2.2.1 _ rfl,
   (renderJson_shape_C5 ⟨⟨"run-1", "completed", "core"⟩,
      some ⟨"json", .dictv [("a", "1")],
        some [⟨none, some "high", none⟩]⟩⟩).2.2.2.2.2.1 _ _ rfl rfl,
   (renderJson_shape_C5 ⟨⟨"run-2", "completed", "core"⟩,
      none⟩).2.2.2.2.2.2.2.1 rfl,
   (renderJson_shape_C5 ⟨⟨"run-2", "completed", "core"⟩,
      none⟩).2.2.2.2.2.2.2.2 ⟨"run-2", "completed", "core"⟩ "text"
      (.strv "hi") [⟨none, none, none⟩]⟩

/-- C3: free text of exactly 2000 characters is rendered unchanged, 2001
characters is truncated to the first 2000 plus `"..."`; a per-field value
of exactly 200 characters in dict output is unchanged, 201 characters is
truncated to 200 plus `"..."`. -/
theorem truncation_boundary_C3 (run : Run) (s t u v k : String)
    (hs : s.length = 2000) (ht : t.length = 2001)
    (hu : u.length = 200) (hv : v.length = 201) :
    format_result ⟨run, some ⟨"text", .strv s, none⟩⟩ =
      some (String.intercalate "\n"
        ["üî¨ Task: " ++ run.run_id,
         "   Status: " ++ run.status ++ " | Processor: " ++ run.processor,
         "", "**Report:**", s]) ∧
    format_result ⟨run, some ⟨"text", .strv t, none⟩⟩ =
      some (String.intercalate "\n"
        ["üî¨ Task: " ++ run.run_id,
         "   Status: " ++ run.status ++ " | Processor: " ++ run.processor,
         "", "**Report:**", (t.data.take 2000).asString ++ "..."]) ∧
    format_result ⟨run, some ⟨"json", .dictv [(k, u)], none⟩⟩ =
      some (String.intercalate "\n"
        ["üî¨ Task: " ++ run.run_id,
         "   Status: " ++ run.status ++ " | Processor: " ++ run.processor,
         "", "**Results:**", "  ‚Ä¢ " ++ k ++ ": " ++ u]) ∧
    format_result ⟨run, some ⟨"json", .dictv [(k, v)], none⟩⟩ =
      some (String.intercalate "\n"
        ["üî¨ Task: " ++ run.run_id,
         "   Status: " ++ run.status ++ " | Processor: " ++ run.processor,
         "", "**Results:**",
         "  ‚Ä¢ " ++ k ++ ": " ++ (v.data.take 200).asString ++ "..."]) := by
  refine ⟨?_, ?_, ?_, ?_⟩ <;>
    simp [format_result, contentLines, basisLines, truncContent, truncVal,
      Content.isDict, hs, ht, hu, hv, String.append_assoc]

/-- A string of `n` repeated `'a'` characters, for boundary witnesses. -/
def charRun (n : Nat) : String := (List.replicate n 'a').asString

theorem charRun_length (n : Nat) : (charRun n).length = n := by
  simp [charRun, List.length_asString]

/-- C3 witness: the boundary law at concrete strings of lengths 2000,
2001, 200 and 201. -/
theorem truncation_boundary_C3_witness :
    format_result ⟨⟨"r", "completed", "core"⟩,
        some ⟨"text", .strv (charRun 2000), none⟩⟩ =
      some (String.intercalate "\n"
        ["üî¨ Task: " ++ "r",
         "   Status: " ++ "completed" ++ " | Processor: " ++ "core",
         "", "**Report:**", charRun 2000]) ∧
    format_result ⟨⟨"r", "completed", "core"⟩,
        some ⟨"text", .strv (charRun 2001), none⟩⟩ =
      some (String.intercalate "\n"
        ["üî¨ Task: " ++ "r",
         "   Status: " ++ "completed" ++ " | Processor: " ++ "core",
         "", "**Report:**", ((charRun 2001).data.take 2000).asString ++ "..."]) ∧
    format_result ⟨⟨"r", "completed", "core"⟩,
        some ⟨"json", .dictv [("k", charRun 200)], none⟩⟩ =
      some (String.intercalate "\n"
        ["üî¨ Task: " ++ "r",
         "   Status: " ++ "completed" ++ " | Processor: " ++ "core",
         "", "**Results:**", "  ‚Ä¢ " ++ "k" ++ ": " ++ charRun 200]) ∧
    format_result ⟨⟨"r", "completed", "core"⟩,
        some ⟨"json", .dictv [("k", charRun 201)], none⟩⟩ =
      some (String.intercalate "\n"
        ["üî¨ Task: " ++ "r",
         "   Status: " ++ "completed" ++ " | Processor: " ++ "core",
         "", "**Results:**",
         "  ‚Ä¢ " ++ "k" ++ ": " ++ ((charRun 201).data.take 200).asString ++ "..."]) :=
  truncation_boundary_C3 ⟨"r", "completed", "core"⟩
    (charRun 2000) (charRun 2001) (charRun 200) (charRun 201) "k"
    (charRun_length 2000) (charRun_length 2001)
    (charRun_length 200) (charRun_length 201)

/-! ### Claims about the poller -/

theorem pollGo_skip (retrieve : Nat → RunResult) (timeout : Int) (k : Nat)
    (hprog : ∀ j < k, 2 * (j : Int) < timeout ∧
      (retrieve j).run.status ≠ "completed" ∧
      (retrieve j).run.status ≠ "failed") :
    pollGo retrieve timeout 0 = pollGo retrieve timeout k := by
  induction k with
  | zero => rfl
  | succ n ih =>
      have h0 : pollGo retrieve timeout 0 = pollGo retrieve timeout n :=
        ih (fun j hj => hprog j (Nat.lt_succ_of_lt hj))
      have hn := hprog n (Nat.lt_succ_self n)
      rw [h0, pollGo, dif_pos hn.1]
      simp [hn.2.1, hn.2.2]

/-- C1: with the earlier retrievals all non-terminal, polling returns the
retrieved result at the first `"completed"` status, raises with the run's
failure detail at the first `"failed"` status, and raises the timeout
error at the first guard check whose elapsed time (2 seconds per
interval) has reached the timeout; any other status keeps polling. -/
theorem poll_transitions_C1 (retrieve : Nat → RunResult) (timeout : Int)
    (k : Nat)
    (hprog : ∀ j < k, (retrieve j).run.status ≠ "completed" ∧
      (retrieve j).run.status ≠ "failed") :
    (2 * (k : Int) < timeout → (retrieve k).run.status = "completed" →
      poll_task retrieve timeout = .success (retrieve k) k) ∧
    (2 * (k : Int) < timeout → (retrieve k).run.status = "failed" →
      poll_task retrieve timeout = .taskFailed (retrieve k).run k) ∧
    (timeout ≤ 2 * (k : Int) → (∀ j < k, 2 * (j : Int) < timeout) →
      poll_task retrieve timeout = .timedOut k) := by
  refine ⟨?_, ?_, ?_⟩
  · intro hlt hst
    have hskip := pollGo_skip retrieve timeout k (fun j hj =>
      ⟨by
        have hjk : (j : Int) < (k : Int) := by exact_mod_cast hj
        omega,
       hprog j hj⟩)
    unfold poll_task
    rw [hskip, pollGo, dif_pos hlt]
    simp [hst]
  · intro hlt hst
    have hskip := pollGo_skip retrieve timeout k (fun j hj =>
      ⟨by
        have hjk : (j : Int) < (k : Int) := by exact_mod_cast hj
        omega,
       hprog j hj⟩)
    unfold poll_task
    rw [hskip, pollGo, dif_pos hlt]
    simp [hst]
  · intro hge hall
    have hskip := pollGo_skip retrieve timeout k (fun j hj =>
      ⟨hall j hj, hprog j hj⟩)
    unfold poll_task
    rw [hskip, pollGo, dif_neg (by omega)]

/-- Retrieval trace: queued once, then completed. -/
def retrComplete : Nat → RunResult := fun j =>
  if j = 0 then ⟨⟨"run-1", "queued", "core"⟩, none⟩
  else ⟨⟨"run-1", "completed", "core"⟩, some ⟨"text", .strv "done", none⟩⟩

/-- Retrieval trace: running once, then failed. -/
def retrFail : Nat → RunResult := fun j =>
  if j = 0 then ⟨⟨"run-2", "running", "core"⟩, none⟩
  else ⟨⟨"run-2", "failed", "core"⟩, none⟩

/-- Retrieval trace: running forever. -/
def retrForever : Nat → RunResult := fun _ =>
  ⟨⟨"run-3", "running", "core"⟩, none⟩

/-- C1 witness: the transition law on three concrete retrieval traces:
completion at the second poll, failure at the second poll, and timeout
after three polls with a 6-second budget. -/
theorem poll_transitions_C1_witness :
    poll_task retrComplete 300 = .success (retrComplete 1) 1 ∧
    poll_task retrFail 300 = .taskFailed (retrFail 1).run 1 ∧
    poll_task retrForever 6 = .timedOut 3 :=
  ⟨(poll_transitions_C1 retrComplete 300 1 (by decide)).1
      (by decide) (by decide),
   (poll_transitions_C1 retrFail 300 1 (by decide)).2.1
      (by decide) (by decide),
   (poll_transitions_C1 retrForever 6 3 (by decide)).2.2
      (by decide) (by decide)⟩

/-- C10: a timeout of at most zero raises the timeout error at the very
first guard check, before any status retrieval: the outcome is
`timedOut 0` and does not depend on the retrieval function at all. -/
theorem poll_zero_timeout_C10 (retrieve : Nat → RunResult) (timeout : Int)
    (h : timeout ≤ 0) :
    poll_task retrieve timeout = .timedOut 0 ∧
    (∀ retrieve' : Nat → RunResult,
      poll_task retrieve' timeout = poll_task retrieve timeout) := by
  have key : ∀ f : Nat → RunResult, poll_task f timeout = .timedOut 0 := by
    intro f
    unfold poll_task
    rw [pollGo, dif_neg (by omega)]
  exact ⟨key retrieve, fun g => (key g).trans (key retrieve).symm⟩

/-- C10 witness: timeout 0 times out with no retrieval, on two different
retrieval traces. -/
theorem poll_zero_timeout_C10_witness :
    poll_task retrForever 0 = .timedOut 0 ∧
    poll_task retrComplete 0 = poll_task retrForever 0 :=
  ⟨(poll_zero_timeout_C10 retrForever 0 (by decide)).1,
   (poll_zero_timeout_C10 retrForever 0 (by decide)).2 retrComplete⟩

end TaskCli
